import Mathlib

/-!
Verification of the IHPS fluid calculator engine (src/server.js).

The clinical decision engine is a pure function from a validated clinical
snapshot to a fluid plan.  JavaScript numbers are modelled as rationals
(ℚ); every constant appearing in the source (2.5, 7.55, …) is exactly
representable.  `Math.round` is modelled as `⌊q + 1/2⌋` (JS rounds halves
toward +∞).  Optional clinical parameters are `Option ℚ`, `none` meaning
"not measured"; the JS truthiness tests (`glucose && …`, `hct && …`) are
modelled explicitly, so a measured value of 0 is falsy, as in the source.
Fallible request handling returns `Except`.
-/

namespace IHPS

/-- JS `Math.round` on a rational: nearest integer, halves toward +∞. -/
def mathRound (q : ℚ) : ℤ := ⌊q + 1/2⌋

/-- JS truthiness of an optional numeric value: `undefined`/`null` and `0`
are falsy, every other number is truthy. -/
def truthy : Option ℚ → Bool
  | none => false
  | some x => x != 0

/-- JS `o && o < c` for an optional numeric `o`: the value must be present,
truthy (nonzero) and below `c`. -/
def truthyAndLt (o : Option ℚ) (c : ℚ) : Bool :=
  truthy o && (o.getD 0 < c)

/-- JS `o && o > c` for an optional numeric `o`: present, truthy and above
`c`. -/
def truthyAndGt (o : Option ℚ) (c : ℚ) : Bool :=
  truthy o && (o.getD 0 > c)

/-- JS comparison `x < c` where `x` may be `undefined`: comparisons with
`undefined` (NaN) are always false. -/
def optLt (o : Option ℚ) (c : ℚ) : Bool :=
  match o with
  | none => false
  | some x => x < c

/-- JS comparison `x > c` where `x` may be `undefined`. -/
def optGt (o : Option ℚ) (c : ℚ) : Bool :=
  match o with
  | none => false
  | some x => x > c

/-- The clinical snapshot handed to `calculateIHPSFluidPlan`: five required
numeric fields, plus optional parameters (`none` = not measured). -/
structure ClinicalSnapshot where
  sodium : ℚ
  potassium : ℚ
  chloride : ℚ
  ph : ℚ
  weight : ℚ
  urineOutput : ℚ := 1
  glucose : Option ℚ := none
  pco2 : Option ℚ := none
  hct : Option ℚ := none
  lactate : Option ℚ := none
  be : Option ℚ := none
  hco3 : Option ℚ := none
  creatinine : Option ℚ := none
  bun : Option ℚ := none
deriving DecidableEq

/-- Result of `selectOptimalFluidEnhanced`: a fluid label and a reason. -/
structure FluidSelection where
  fluid : String
  reason : String
deriving DecidableEq

/-- Result of `calculateBolusRecommendation`. -/
structure BolusRecommendation where
  volume : ℕ
  totalVolume : ℤ
  reason : String
deriving DecidableEq

/-- The assembled fluid plan returned by `calculateIHPSFluidPlan`. -/
structure FluidPlan where
  fluidType : String
  fluidSelectionReason : String
  fluidRatePerHour : ℤ
  maintenanceRate : ℤ
  correctionTime : ℕ
  totalFluidVolume : ℤ
  bolusRecommendation : BolusRecommendation
  alerts : List String
  recheckInterval : String
  nextLabCheck : String
deriving DecidableEq

/-- Replace the first occurrence of `pat` in a character list, as JS
`String.replace` with a string pattern does; if `pat` does not occur the
list is unchanged. -/
def replaceFirstAux (pat repl : List Char) : List Char → List Char
  | [] => []
  | c :: rest =>
    if pat.isPrefixOf (c :: rest) then repl ++ (c :: rest).drop pat.length
    else c :: replaceFirstAux pat repl rest

/-- JS `s.replace(pat, repl)` for string patterns: replace the first
occurrence only. -/
def replaceFirst (s pat repl : String) : String :=
  ⟨replaceFirstAux pat.data repl.data s.data⟩

/-- The base-fluid branch tree of `selectOptimalFluidEnhanced`
(src/server.js lines 213-241), before the potassium overlay.  The glucose
guards are the JS truthiness tests `glucose && glucose < 2.5` and
`glucose && glucose < 3.0`. -/
def selectBaseFluid (s : ClinicalSnapshot) : FluidSelection :=
  if truthyAndLt s.glucose 2.5 then
    if s.sodium < 135 then
      ⟨"D10 1/2 NS + 20 mEq/L KCl",
       "Low glucose + low sodium - D10 1/2 NS for both glucose and sodium correction"⟩
    else
      ⟨"D10 NS + 20 mEq/L KCl",
       "Low glucose + normal sodium - D10 NS for glucose support"⟩
  else if truthyAndLt s.glucose 3.0 then
    if s.sodium < 135 then
      ⟨"D10 1/2 NS + 20 mEq/L KCl",
       "Mildly low glucose + low sodium - D10 1/2 NS"⟩
    else
      ⟨"D5 1/2 NS + 20 mEq/L KCl",
       "Mildly low glucose - standard D5 1/2 NS with monitoring"⟩
  else
    if s.sodium < 135 then
      ⟨"NS + 5% Dextrose + 20 mEq/L KCl",
       "Low sodium - NS + 5% Dextrose for sodium correction"⟩
    else
      ⟨"D5 1/2 NS + 20 mEq/L KCl",
       "Normal sodium - standard D5 1/2 NS"⟩

/-- The potassium adjustment at the end of `selectOptimalFluidEnhanced`
(src/server.js lines 243-250): `fluid.replace("20 mEq/L", "40 mEq/L")`
when potassium < 3.0, `fluid.replace(" + 20 mEq/L KCl", "")` when
potassium > 5.0. -/
def applyPotassiumAdjustment (potassium : ℚ) (f : FluidSelection) : FluidSelection :=
  if potassium < 3.0 then
    ⟨replaceFirst f.fluid "20 mEq/L" "40 mEq/L",
     f.reason ++ " + aggressive KCl for severe hypokalaemia"⟩
  else if potassium > 5.0 then
    ⟨replaceFirst f.fluid " + 20 mEq/L KCl" "",
     f.reason ++ " + hold KCl for hyperkalaemia"⟩
  else f

/-- `selectOptimalFluidEnhanced` (src/server.js lines 209-253): base-fluid
branch tree followed by the potassium adjustment of the KCl additive. -/
def selectOptimalFluidEnhanced (s : ClinicalSnapshot) : FluidSelection :=
  applyPotassiumAdjustment s.potassium (selectBaseFluid s)

/-- `calculateCorrectionTime` (src/server.js lines 142-182). -/
def calculateCorrectionTime (s : ClinicalSnapshot) : ℕ :=
  let baseTime : ℕ := 12
  let baseTime : ℕ :=
    if s.sodium < 130 then 36
    else if s.sodium < 135 then 24
    else if s.sodium ≥ 135 then 12
    else baseTime
  let baseTime : ℕ :=
    if s.chloride < 70 then max baseTime 36
    else if s.chloride < 90 then max baseTime 24
    else baseTime
  let baseTime : ℕ :=
    if s.ph > 7.55 then max baseTime 24
    else if s.ph > 7.45 then max baseTime 18
    else baseTime
  if s.weight < 3.0 then baseTime + 6 else baseTime

/-- Alert message strings of `generateSimpleAlerts`. -/
def msgHypokalaemia : String :=
  "CRITICAL: Severe hypokalaemia - aggressive KCl needed"

def msgHyperkalaemia : String :=
  "CRITICAL: Hyperkalaemia risk - hold KCl, monitor closely"

def msgHyponatremia : String :=
  "WARNING: Severe hyponatremia - use NS + 5% Dextrose"

def msgHypochloremia : String :=
  "WARNING: Severe hypochloremia - expect longer correction time"

def msgAlkalosis : String :=
  "WARNING: Severe alkalosis - slow correction needed"

/-- `generateSimpleAlerts` (src/server.js lines 185-206): five threshold
checks pushing messages in a fixed order. -/
def generateSimpleAlerts (s : ClinicalSnapshot) : List String :=
  (if s.potassium < 3.0 then [msgHypokalaemia] else []) ++
  (if s.potassium > 5.5 then [msgHyperkalaemia] else []) ++
  (if s.sodium < 130 then [msgHyponatremia] else []) ++
  (if s.chloride < 70 then [msgHypochloremia] else []) ++
  (if s.ph > 7.55 then [msgAlkalosis] else [])

/-- The severity-tier stage of `calculateBolusRecommendation`
(src/server.js lines 257-269), before the hematocrit and lactate
escalators: per-kg volume and reason. -/
def bolusTier (s : ClinicalSnapshot) : ℕ × String :=
  if s.sodium < 130 ∨ s.chloride < 70 ∨ s.ph > 7.55 then
    (20, "Severe depletion - 20 mL/kg NS bolus recommended")
  else if s.sodium < 135 ∨ s.chloride < 90 ∨ s.ph > 7.45 then
    (10, "Moderate depletion - 10 mL/kg NS bolus recommended")
  else
    (0, "No bolus needed - mild abnormalities")

/-- `calculateBolusRecommendation` (src/server.js lines 256-287): severity
tier, then the hematocrit and lactate escalators (`hct && hct > 50`,
`lactate && lactate > 2.0`, each `Math.max(volume, 10)`), then
`totalVolume = Math.round(volume * weight)`. -/
def calculateBolusRecommendation (s : ClinicalSnapshot) : BolusRecommendation :=
  let t := bolusTier s
  let v1 : ℕ := if truthyAndGt s.hct 50 then max t.1 10 else t.1
  let r1 : String :=
    if truthyAndGt s.hct 50 then t.2 ++ " + high hematocrit indicates dehydration" else t.2
  let v2 : ℕ := if truthyAndGt s.lactate 2.0 then max v1 10 else v1
  let r2 : String :=
    if truthyAndGt s.lactate 2.0 then r1 ++ " + elevated lactate indicates poor perfusion" else r1
  ⟨v2, mathRound ((v2 : ℚ) * s.weight), r2⟩

/-- `calculateNextLabCheck` (src/server.js lines 290-296). -/
def calculateNextLabCheck (correctionTime : ℕ) : String :=
  if correctionTime ≤ 24 then
    "Next lab check in 12 hours (critical first 24 hours)"
  else
    "Next lab check in 24 hours (monitoring improvement)"

/-- The un-rounded maintenance rate of `calculateIHPSFluidPlan`
(src/server.js lines 97-103): `weight * 4` up to 10 kg, then
`10*4 + (weight-10)*2`. -/
def rawMaintenanceRate (weight : ℚ) : ℚ :=
  if weight ≤ 10 then weight * 4 else 10 * 4 + (weight - 10) * 2

/-- The un-rounded IHPS fluid rate of `calculateIHPSFluidPlan`
(src/server.js lines 97-103): `weight * 6` up to 10 kg, then
`10*6 + (weight-10)*3`. -/
def rawFluidRate (weight : ℚ) : ℚ :=
  if weight ≤ 10 then weight * 6 else 10 * 6 + (weight - 10) * 3

/-- `calculateIHPSFluidPlan` (src/server.js lines 89-139).  Note that
`totalFluidVolume` is computed from the un-rounded hourly rate, while the
returned `fluidRatePerHour` and `maintenanceRate` are rounded. -/
def calculateIHPSFluidPlan (s : ClinicalSnapshot) : FluidPlan :=
  let maintenanceRate : ℚ := rawMaintenanceRate s.weight
  let fluidRatePerHour : ℚ := rawFluidRate s.weight
  let fluidSelection := selectOptimalFluidEnhanced s
  let bolusRecommendation := calculateBolusRecommendation s
  let correctionTime := calculateCorrectionTime s
  let totalFluidVolume : ℚ := fluidRatePerHour * correctionTime
  let alerts := generateSimpleAlerts s
  let recheckInterval := if correctionTime ≤ 24 then "12 hours" else "24 hours"
  { fluidType := fluidSelection.fluid
    fluidSelectionReason := fluidSelection.reason
    fluidRatePerHour := mathRound fluidRatePerHour
    maintenanceRate := mathRound maintenanceRate
    correctionTime := correctionTime
    totalFluidVolume := mathRound totalFluidVolume
    bolusRecommendation := bolusRecommendation
    alerts := alerts
    recheckInterval := recheckInterval
    nextLabCheck := calculateNextLabCheck correctionTime }

/-- The raw `/calculate` request body: every field may be absent.  String
values coerce to numbers in the JS comparisons; we model an already
numeric-or-absent view. -/
structure CalcRequest where
  sodium : Option ℚ := none
  potassium : Option ℚ := none
  chloride : Option ℚ := none
  ph : Option ℚ := none
  weight : Option ℚ := none
  urineOutput : Option ℚ := none
  glucose : Option ℚ := none
  pco2 : Option ℚ := none
  hct : Option ℚ := none
  lactate : Option ℚ := none
  be : Option ℚ := none
  hco3 : Option ℚ := none
  creatinine : Option ℚ := none
  bun : Option ℚ := none
deriving DecidableEq

/-- Validation error messages of `validateInputs`. -/
def sodiumRangeMsg : String := "Sodium must be between 120-155 mmol/L"

def potassiumRangeMsg : String := "Potassium must be between 2.0-8.0 mmol/L"

def chlorideRangeMsg : String := "Chloride must be between 60-120 mmol/L"

def phRangeMsg : String := "pH must be between 7.0-7.7"

def weightRangeMsg : String := "Weight must be between 1.0-10.0 kg"

/-- `validateInputs` (src/server.js lines 68-86).  The JS comparisons
`x < lo || x > hi` are false when `x` is `undefined`, so an absent field
passes every check; `some msg` is a failed validation. -/
def validateInputs (sodium potassium chloride ph weight : Option ℚ) : Option String :=
  if optLt sodium 120 || optGt sodium 155 then some sodiumRangeMsg
  else if optLt potassium 2.0 || optGt potassium 8.0 then some potassiumRangeMsg
  else if optLt chloride 60 || optGt chloride 120 then some chlorideRangeMsg
  else if optLt ph 7.0 || optGt ph 7.7 then some phRangeMsg
  else if optLt weight 1.0 || optGt weight 10.0 then some weightRangeMsg
  else none

/-- Parsing of the validated request into the engine's snapshot
(src/server.js lines 37-52).  `parseFloat` of an absent required field is
NaN in the source; NaN is outside the rational embedding, so the parse is
total only when the five required fields are present (`none` otherwise;
see `handleCalculate`). -/
def parseSnapshot (r : CalcRequest) : Option ClinicalSnapshot :=
  match r.sodium, r.potassium, r.chloride, r.ph, r.weight with
  | some na, some k, some cl, some ph, some w =>
    some { sodium := na, potassium := k, chloride := cl, ph := ph, weight := w
           urineOutput := (r.urineOutput.getD 1)
           glucose := r.glucose, pco2 := r.pco2, hct := r.hct, lactate := r.lactate
           be := r.be, hco3 := r.hco3, creatinine := r.creatinine, bun := r.bun }
  | _, _, _, _, _ => none

/-- The `/calculate` route handler (src/server.js lines 20-65): validate,
and only on success invoke the engine.  `Except.error` is the
`success: false` response carrying the validation message; `Except.ok`
means `calculateIHPSFluidPlan` was invoked (`none` inside marks the
unmodelled NaN run on an absent required field). -/
def handleCalculate (r : CalcRequest) : Except String (Option FluidPlan) :=
  match validateInputs r.sodium r.potassium r.chloride r.ph r.weight with
  | some e => .error e
  | none => .ok ((parseSnapshot r).map calculateIHPSFluidPlan)

/-- Whether the engine is invoked for a request: validation passed. -/
def engineInvoked (r : CalcRequest) : Bool :=
  (validateInputs r.sodium r.potassium r.chloride r.ph r.weight).isNone

end IHPS

namespace IHPS

/-! ## Spec-side formulations and helper lemmas -/

/-- Modelled from the spec (section 4.4): the correction-time recipe as the
spec states it — sodium sets an absolute value, chloride and pH only raise
the running value, the weight penalty is added last. -/
def correctionTimeSpec (s : ClinicalSnapshot) : ℕ :=
  let t1 : ℕ := if s.sodium < 130 then 36 else if s.sodium < 135 then 24 else 12
  let t2 : ℕ :=
    if s.chloride < 70 then max t1 36 else if s.chloride < 90 then max t1 24 else t1
  let t3 : ℕ :=
    if s.ph > 7.55 then max t2 24 else if s.ph > 7.45 then max t2 18 else t2
  if s.weight < 3.0 then t3 + 6 else t3

/-- The absolute value the sodium rule assigns. -/
def sodiumFactor (na : ℚ) : ℕ :=
  if na < 130 then 36 else if na < 135 then 24 else 12

/-- The floor contributed by the chloride rule (12 = no constraint). -/
def chlorideFloor (cl : ℚ) : ℕ :=
  if cl < 70 then 36 else if cl < 90 then 24 else 12

/-- The floor contributed by the pH rule (12 = no constraint). -/
def phFloor (ph : ℚ) : ℕ :=
  if ph > 7.55 then 24 else if ph > 7.45 then 18 else 12

/-- The additive small-infant penalty. -/
def weightPenalty (w : ℚ) : ℕ :=
  if w < 3.0 then 6 else 0

/-- Whether `pat` occurs as a contiguous run inside `hay`. -/
def containsSubstr (hay pat : List Char) : Bool :=
  match hay with
  | [] => pat.isEmpty
  | c :: rest => pat.isPrefixOf (c :: rest) || containsSubstr rest pat

/-- A required field that is present (as a number) and outside its
declared `[lo, hi]` range. -/
def presentOutOfRange (o : Option ℚ) (lo hi : ℚ) : Prop :=
  ∃ x, o = some x ∧ (x < lo ∨ hi < x)

/-- A concrete in-range snapshot used by several witnesses. -/
def witnessSnapshot : ClinicalSnapshot :=
  { sodium := 140, potassium := 4, chloride := 105, ph := 7.4, weight := 5 }

/-- A valid snapshot whose un-rounded hourly rate (3.25 kg × 6 = 19.5) is
not an integer. -/
def lowQuarterSnapshot : ClinicalSnapshot :=
  { sodium := 140, potassium := 4, chloride := 105, ph := 7.4, weight := 3.25 }

/-- A snapshot with a measured glucose of 0 (< 2.5) and low sodium. -/
def zeroGlucoseSnapshot : ClinicalSnapshot :=
  { sodium := 130, potassium := 4, chloride := 100, ph := 7.4, weight := 4,
    glucose := some 0 }

/-- A snapshot with a measured nonzero low glucose. -/
def lowGlucoseSnapshot : ClinicalSnapshot :=
  { sodium := 130, potassium := 4, chloride := 100, ph := 7.4, weight := 4,
    glucose := some 2 }

/-- The severe snapshot of the spec's worked example (sodium 129,
potassium 2.8, chloride 67, pH 7.4, weight 3.2). -/
def severeSnapshot : ClinicalSnapshot :=
  { sodium := 129, potassium := 2.8, chloride := 67, ph := 7.4, weight := 3.2 }

/-- A snapshot with potassium 5.2, strictly between 5.0 and 5.5. -/
def midPotassiumSnapshot : ClinicalSnapshot :=
  { sodium := 140, potassium := 5.2, chloride := 105, ph := 7.4, weight := 5 }

/-- A request whose sodium field is absent but whose other required
fields are present and in range. -/
def missingSodiumRequest : CalcRequest :=
  { potassium := some 4, chloride := some 100, ph := some 7.4, weight := some 4 }

/-- A fully present, in-range request. -/
def inRangeRequest : CalcRequest :=
  { sodium := some 140, potassium := some 4, chloride := some 105,
    ph := some 7.4, weight := some 5 }

lemma correctionTime_closed (s : ClinicalSnapshot) :
    calculateCorrectionTime s =
      max (max (sodiumFactor s.sodium) (chlorideFloor s.chloride)) (phFloor s.ph)
        + weightPenalty s.weight := by
  unfold calculateCorrectionTime sodiumFactor chlorideFloor phFloor weightPenalty
  split_ifs <;> first | rfl | omega | linarith

lemma sodiumFactor_antitone {na na' : ℚ} (h : na' ≤ na) :
    sodiumFactor na ≤ sodiumFactor na' := by
  unfold sodiumFactor
  split_ifs <;> first | omega | linarith

lemma chlorideFloor_antitone {cl cl' : ℚ} (h : cl' ≤ cl) :
    chlorideFloor cl ≤ chlorideFloor cl' := by
  unfold chlorideFloor
  split_ifs <;> first | omega | linarith

lemma phFloor_monotone {p p' : ℚ} (h : p ≤ p') :
    phFloor p ≤ phFloor p' := by
  unfold phFloor
  split_ifs <;> first | omega | linarith

/-! ## C3 -/

/-- Claim C3 (confirmed): correctionTime is computed exactly by the stated
recipe — start at 12, the sodium rule sets an absolute value
(36 / 24 / 12), chloride then pH raise the value to the stated floors, and
a weight < 3.0 kg adds 6 hours after all floors. -/
theorem correctionTime_follows_spec_recipe (s : ClinicalSnapshot) :
    calculateCorrectionTime s = correctionTimeSpec s := by
  unfold calculateCorrectionTime correctionTimeSpec
  split_ifs <;> first | rfl | omega | linarith

/-! ## C4 -/

/-- Claim C4 (confirmed): for required fields in their validated ranges the
correction time lies in {12, 18, 24, 30, 36, 42}, and with all other
inputs fixed it is monotonically non-decreasing as sodium decreases, as
chloride decreases, and as pH increases. -/
theorem correctionTime_range_and_monotone (s : ClinicalSnapshot)
    (hna : 120 ≤ s.sodium ∧ s.sodium ≤ 155)
    (hk : 2.0 ≤ s.potassium ∧ s.potassium ≤ 8.0)
    (hcl : 60 ≤ s.chloride ∧ s.chloride ≤ 120)
    (hph : 7.0 ≤ s.ph ∧ s.ph ≤ 7.7)
    (hw : 1.0 ≤ s.weight ∧ s.weight ≤ 10.0) :
    calculateCorrectionTime s ∈ ([12, 18, 24, 30, 36, 42] : List ℕ) ∧
    (∀ na, na ≤ s.sodium →
      calculateCorrectionTime s ≤ calculateCorrectionTime { s with sodium := na }) ∧
    (∀ cl, cl ≤ s.chloride →
      calculateCorrectionTime s ≤ calculateCorrectionTime { s with chloride := cl }) ∧
    (∀ p, s.ph ≤ p →
      calculateCorrectionTime s ≤ calculateCorrectionTime { s with ph := p }) := by
  refine ⟨?_, ?_, ?_, ?_⟩
  · rw [correctionTime_closed]
    unfold sodiumFactor chlorideFloor phFloor weightPenalty
    split_ifs <;> decide
  · intro na h
    rw [correctionTime_closed, correctionTime_closed]
    exact Nat.add_le_add_right
      (max_le_max (max_le_max (sodiumFactor_antitone h) le_rfl) le_rfl) _
  · intro cl h
    rw [correctionTime_closed, correctionTime_closed]
    exact Nat.add_le_add_right
      (max_le_max (max_le_max le_rfl (chlorideFloor_antitone h)) le_rfl) _
  · intro p h
    rw [correctionTime_closed, correctionTime_closed]
    exact Nat.add_le_add_right (max_le_max le_rfl (phFloor_monotone h)) _

/-- Witness for C4 at a concrete in-range snapshot. -/
theorem correctionTime_range_and_monotone_witness :
    calculateCorrectionTime witnessSnapshot ∈ ([12, 18, 24, 30, 36, 42] : List ℕ) ∧
    calculateCorrectionTime witnessSnapshot ≤
      calculateCorrectionTime { witnessSnapshot with sodium := 128 } :=
  ⟨(correctionTime_range_and_monotone witnessSnapshot
      (by constructor <;> norm_num [witnessSnapshot])
      (by constructor <;> norm_num [witnessSnapshot])
      (by constructor <;> norm_num [witnessSnapshot])
      (by constructor <;> norm_num [witnessSnapshot])
      (by constructor <;> norm_num [witnessSnapshot])).1,
   (correctionTime_range_and_monotone witnessSnapshot
      (by constructor <;> norm_num [witnessSnapshot])
      (by constructor <;> norm_num [witnessSnapshot])
      (by constructor <;> norm_num [witnessSnapshot])
      (by constructor <;> norm_num [witnessSnapshot])
      (by constructor <;> norm_num [witnessSnapshot])).2.1 128 (by norm_num [witnessSnapshot])⟩

end IHPS

namespace IHPS

/-! ## C1 -/

lemma mathRound_intCast (n : ℤ) : mathRound (n : ℚ) = n := by
  unfold mathRound
  rw [Int.floor_int_add]
  norm_num

lemma mathRound_eq_of (q : ℚ) (n : ℤ) (h1 : (n : ℚ) ≤ q + 1/2)
    (h2 : q + 1/2 < (n : ℚ) + 1) : mathRound q = n := by
  unfold mathRound
  rw [Int.floor_eq_iff]
  exact ⟨h1, by push_cast; linarith⟩

/-- Counterexample to C1: at the valid snapshot with weight 3.25 kg the
plan has totalFluidVolume 234 but fluidRatePerHour 20 and correctionTime
12, and 234 ≠ 20 × 12. -/
theorem totalFluidVolume_ne_rounded_product :
    (120 ≤ lowQuarterSnapshot.sodium ∧ lowQuarterSnapshot.sodium ≤ 155 ∧
     2.0 ≤ lowQuarterSnapshot.potassium ∧ lowQuarterSnapshot.potassium ≤ 8.0 ∧
     60 ≤ lowQuarterSnapshot.chloride ∧ lowQuarterSnapshot.chloride ≤ 120 ∧
     7.0 ≤ lowQuarterSnapshot.ph ∧ lowQuarterSnapshot.ph ≤ 7.7 ∧
     1.0 ≤ lowQuarterSnapshot.weight ∧ lowQuarterSnapshot.weight ≤ 10.0) ∧
    (calculateIHPSFluidPlan lowQuarterSnapshot).totalFluidVolume = 234 ∧
    (calculateIHPSFluidPlan lowQuarterSnapshot).fluidRatePerHour = 20 ∧
    (calculateIHPSFluidPlan lowQuarterSnapshot).correctionTime = 12 ∧
    (calculateIHPSFluidPlan lowQuarterSnapshot).totalFluidVolume ≠
      (calculateIHPSFluidPlan lowQuarterSnapshot).fluidRatePerHour *
        ((calculateIHPSFluidPlan lowQuarterSnapshot).correctionTime : ℤ) := by
  have hct : calculateCorrectionTime lowQuarterSnapshot = 12 := by
    unfold calculateCorrectionTime lowQuarterSnapshot
    norm_num
  have hraw : rawFluidRate lowQuarterSnapshot.weight = 39/2 := by
    unfold rawFluidRate lowQuarterSnapshot
    norm_num
  have htot : (calculateIHPSFluidPlan lowQuarterSnapshot).totalFluidVolume
      = mathRound (rawFluidRate lowQuarterSnapshot.weight *
          (calculateCorrectionTime lowQuarterSnapshot : ℚ)) := rfl
  have hrate : (calculateIHPSFluidPlan lowQuarterSnapshot).fluidRatePerHour
      = mathRound (rawFluidRate lowQuarterSnapshot.weight) := rfl
  have hctp : (calculateIHPSFluidPlan lowQuarterSnapshot).correctionTime
      = calculateCorrectionTime lowQuarterSnapshot := rfl
  have h234 : (calculateIHPSFluidPlan lowQuarterSnapshot).totalFluidVolume = 234 := by
    rw [htot, hraw, hct]
    exact mathRound_eq_of _ 234 (by norm_num) (by norm_num)
  have h20 : (calculateIHPSFluidPlan lowQuarterSnapshot).fluidRatePerHour = 20 := by
    rw [hrate, hraw]
    exact mathRound_eq_of _ 20 (by norm_num) (by norm_num)
  refine ⟨by unfold lowQuarterSnapshot; norm_num, h234, h20, by rw [hctp, hct], ?_⟩
  rw [h234, h20, hctp, hct]
  norm_num

/-- Claim C1 (amended): totalFluidVolume is the rounding of the
un-rounded hourly rate times correctionTime; it equals the rounded output
fluidRatePerHour times correctionTime whenever the un-rounded rate is an
integer. -/
theorem totalFluidVolume_from_unrounded_rate (s : ClinicalSnapshot) :
    (calculateIHPSFluidPlan s).totalFluidVolume =
      mathRound (rawFluidRate s.weight * (calculateCorrectionTime s : ℚ)) ∧
    ((rawFluidRate s.weight).den = 1 →
      (calculateIHPSFluidPlan s).totalFluidVolume =
        (calculateIHPSFluidPlan s).fluidRatePerHour *
          ((calculateIHPSFluidPlan s).correctionTime : ℤ)) := by
  constructor
  · rfl
  · intro hden
    have hq : ((rawFluidRate s.weight).num : ℚ) = rawFluidRate s.weight := by
      conv_rhs => rw [← Rat.num_div_den (rawFluidRate s.weight)]
      rw [hden]
      push_cast
      ring
    have h1 : (calculateIHPSFluidPlan s).totalFluidVolume
        = mathRound (rawFluidRate s.weight * (calculateCorrectionTime s : ℚ)) := rfl
    have h2 : (calculateIHPSFluidPlan s).fluidRatePerHour
        = mathRound (rawFluidRate s.weight) := rfl
    have h3 : (calculateIHPSFluidPlan s).correctionTime = calculateCorrectionTime s := rfl
    rw [h1, h2, h3, ← hq]
    rw [show ((rawFluidRate s.weight).num : ℚ) * (calculateCorrectionTime s : ℚ)
        = (((rawFluidRate s.weight).num * (calculateCorrectionTime s : ℤ) : ℤ) : ℚ) by
      push_cast; ring]
    rw [mathRound_intCast, mathRound_intCast]

/-- Witness for the amended C1 at weight 5 kg (rate 30, an integer). -/
theorem totalFluidVolume_from_unrounded_rate_witness :
    (rawFluidRate witnessSnapshot.weight).den = 1 ∧
    (calculateIHPSFluidPlan witnessSnapshot).totalFluidVolume =
      (calculateIHPSFluidPlan witnessSnapshot).fluidRatePerHour *
        ((calculateIHPSFluidPlan witnessSnapshot).correctionTime : ℤ) := by
  have h30 : rawFluidRate witnessSnapshot.weight = 30 := by
    unfold rawFluidRate witnessSnapshot
    norm_num
  have hden : (rawFluidRate witnessSnapshot.weight).den = 1 := by
    rw [h30]
    simp
  exact ⟨hden, (totalFluidVolume_from_unrounded_rate witnessSnapshot).2 hden⟩

/-! ## C7 -/

/-- Claim C7 (confirmed): for weight ≤ 10 kg the plan's rates are
round(weight×6) and round(weight×4); above 10 kg the piecewise formulas
round(10×4 + (weight−10)×2) and round(10×6 + (weight−10)×3) hold. -/
theorem rates_piecewise (s : ClinicalSnapshot) :
    (s.weight ≤ 10 →
      (calculateIHPSFluidPlan s).fluidRatePerHour = mathRound (s.weight * 6) ∧
      (calculateIHPSFluidPlan s).maintenanceRate = mathRound (s.weight * 4)) ∧
    (10 < s.weight →
      (calculateIHPSFluidPlan s).maintenanceRate =
        mathRound (10 * 4 + (s.weight - 10) * 2) ∧
      (calculateIHPSFluidPlan s).fluidRatePerHour =
        mathRound (10 * 6 + (s.weight - 10) * 3)) := by
  have h1 : (calculateIHPSFluidPlan s).fluidRatePerHour
      = mathRound (rawFluidRate s.weight) := rfl
  have h2 : (calculateIHPSFluidPlan s).maintenanceRate
      = mathRound (rawMaintenanceRate s.weight) := rfl
  constructor
  · intro h
    rw [h1, h2]
    unfold rawFluidRate rawMaintenanceRate
    rw [if_pos h, if_pos h]
    exact ⟨rfl, rfl⟩
  · intro h
    rw [h1, h2]
    unfold rawFluidRate rawMaintenanceRate
    rw [if_neg (not_le.mpr h), if_neg (not_le.mpr h)]
    exact ⟨rfl, rfl⟩

/-- Witness for C7 at weight 5 kg. -/
theorem rates_piecewise_witness :
    witnessSnapshot.weight ≤ 10 ∧
    (calculateIHPSFluidPlan witnessSnapshot).fluidRatePerHour =
      mathRound (witnessSnapshot.weight * 6) ∧
    (calculateIHPSFluidPlan witnessSnapshot).maintenanceRate =
      mathRound (witnessSnapshot.weight * 4) := by
  have hw : witnessSnapshot.weight ≤ 10 := by
    unfold witnessSnapshot
    norm_num
  exact ⟨hw, ((rates_piecewise witnessSnapshot).1 hw).1,
    ((rates_piecewise witnessSnapshot).1 hw).2⟩

end IHPS

namespace IHPS

/-! ## C2 -/

/-- Counterexample to C2: glucose is measured as 0 (< 2.5) and sodium is
low, yet the base fluid is the standard sodium branch, not a 10%-dextrose
solution — the JS guard `glucose && glucose < 2.5` is false at 0. -/
theorem glucoseZero_skips_dextrose10 :
    zeroGlucoseSnapshot.glucose = some 0 ∧ (0 : ℚ) < 2.5 ∧
    zeroGlucoseSnapshot.sodium < 135 ∧
    (selectBaseFluid zeroGlucoseSnapshot).fluid ≠ "D10 1/2 NS + 20 mEq/L KCl" ∧
    selectBaseFluid zeroGlucoseSnapshot =
      ⟨"NS + 5% Dextrose + 20 mEq/L KCl",
       "Low sodium - NS + 5% Dextrose for sodium correction"⟩ := by
  have hsel : selectBaseFluid zeroGlucoseSnapshot =
      ⟨"NS + 5% Dextrose + 20 mEq/L KCl",
       "Low sodium - NS + 5% Dextrose for sodium correction"⟩ := by
    unfold selectBaseFluid zeroGlucoseSnapshot
    norm_num [truthyAndLt, truthy]
  refine ⟨rfl, by norm_num, by unfold zeroGlucoseSnapshot; norm_num, ?_, hsel⟩
  rw [hsel]
  decide

/-- Claim C2 (amended): when glucose is measured with a nonzero value
below 2.5, the base fluid (before the potassium adjustment) is the
10%-dextrose solution, half-normal-saline when sodium < 135 and
normal-saline otherwise. -/
theorem lowGlucose_selects_dextrose10 (s : ClinicalSnapshot) (g : ℚ)
    (hg : s.glucose = some g) (hg0 : g ≠ 0) (hglt : g < 2.5) :
    (s.sodium < 135 → selectBaseFluid s =
      ⟨"D10 1/2 NS + 20 mEq/L KCl",
       "Low glucose + low sodium - D10 1/2 NS for both glucose and sodium correction"⟩) ∧
    (135 ≤ s.sodium → selectBaseFluid s =
      ⟨"D10 NS + 20 mEq/L KCl",
       "Low glucose + normal sodium - D10 NS for glucose support"⟩) := by
  have hcond : truthyAndLt s.glucose 2.5 = true := by
    rw [hg]
    simp [truthyAndLt, truthy, hg0, hglt]
  unfold selectBaseFluid
  rw [if_pos hcond]
  constructor
  · intro h
    rw [if_pos h]
  · intro h
    rw [if_neg (not_lt.mpr h)]

/-- Witness for the amended C2. -/
theorem lowGlucose_selects_dextrose10_witness :
    lowGlucoseSnapshot.sodium < 135 ∧
    selectBaseFluid lowGlucoseSnapshot =
      ⟨"D10 1/2 NS + 20 mEq/L KCl",
       "Low glucose + low sodium - D10 1/2 NS for both glucose and sodium correction"⟩ := by
  have hna : lowGlucoseSnapshot.sodium < 135 := by
    unfold lowGlucoseSnapshot
    norm_num
  exact ⟨hna, (lowGlucose_selects_dextrose10 lowGlucoseSnapshot 2 rfl
    (by norm_num) (by norm_num)).1 hna⟩

/-! ## C5 -/

lemma selectBaseFluid_cases (s : ClinicalSnapshot) :
    ∃ b r, selectBaseFluid s = ⟨b ++ " + 20 mEq/L KCl", r⟩ ∧
      b ∈ (["D10 1/2 NS", "D10 NS", "D5 1/2 NS", "NS + 5% Dextrose"] : List String) := by
  unfold selectBaseFluid
  split_ifs <;>
    first
      | exact ⟨"D10 1/2 NS", _, rfl, by decide⟩
      | exact ⟨"D10 NS", _, rfl, by decide⟩
      | exact ⟨"D5 1/2 NS", _, rfl, by decide⟩
      | exact ⟨"NS + 5% Dextrose", _, rfl, by decide⟩

/-- Claim C5 (confirmed): the potassium overlay composes with every
base-fluid outcome — below 3.0 the 20 mEq/L KCl additive becomes
40 mEq/L with the aggressive-KCl reason fragment, above 5.0 the KCl
additive is removed entirely with the hold-KCl fragment, and otherwise
the standard 20 mEq/L additive is kept. -/
theorem potassiumOverlay_composes (s : ClinicalSnapshot) :
    ∃ b r, selectBaseFluid s = ⟨b ++ " + 20 mEq/L KCl", r⟩ ∧
      b ∈ (["D10 1/2 NS", "D10 NS", "D5 1/2 NS", "NS + 5% Dextrose"] : List String) ∧
      (s.potassium < 3.0 → selectOptimalFluidEnhanced s =
        ⟨b ++ " + 40 mEq/L KCl", r ++ " + aggressive KCl for severe hypokalaemia"⟩) ∧
      (3.0 ≤ s.potassium → 5.0 < s.potassium → selectOptimalFluidEnhanced s =
        ⟨b, r ++ " + hold KCl for hyperkalaemia"⟩) ∧
      (3.0 ≤ s.potassium → s.potassium ≤ 5.0 → selectOptimalFluidEnhanced s =
        ⟨b ++ " + 20 mEq/L KCl", r⟩) := by
  obtain ⟨b, r, hb, hmem⟩ := selectBaseFluid_cases s
  refine ⟨b, r, hb, hmem, fun h => ?_, fun h1 h2 => ?_, fun h1 h2 => ?_⟩
  · have h40 : replaceFirst (b ++ " + 20 mEq/L KCl") "20 mEq/L" "40 mEq/L"
        = b ++ " + 40 mEq/L KCl" := by
      fin_cases hmem <;> decide
    unfold selectOptimalFluidEnhanced applyPotassiumAdjustment
    rw [hb, if_pos h]
    show (⟨replaceFirst (b ++ " + 20 mEq/L KCl") "20 mEq/L" "40 mEq/L",
          r ++ " + aggressive KCl for severe hypokalaemia"⟩ : FluidSelection) = _
    rw [h40]
  · have hdel : replaceFirst (b ++ " + 20 mEq/L KCl") " + 20 mEq/L KCl" "" = b := by
      fin_cases hmem <;> decide
    unfold selectOptimalFluidEnhanced applyPotassiumAdjustment
    rw [hb, if_neg (not_lt.mpr h1), if_pos h2]
    show (⟨replaceFirst (b ++ " + 20 mEq/L KCl") " + 20 mEq/L KCl" "",
          r ++ " + hold KCl for hyperkalaemia"⟩ : FluidSelection) = _
    rw [hdel]
  · unfold selectOptimalFluidEnhanced applyPotassiumAdjustment
    rw [hb, if_neg (not_lt.mpr h1), if_neg (not_lt.mpr h2)]

/-- Witness for C5: at potassium 2.8 the additive is escalated to
40 mEq/L on top of the selected base fluid. -/
theorem potassiumOverlay_composes_witness :
    ∃ b r, selectBaseFluid severeSnapshot = ⟨b ++ " + 20 mEq/L KCl", r⟩ ∧
      selectOptimalFluidEnhanced severeSnapshot =
        ⟨b ++ " + 40 mEq/L KCl", r ++ " + aggressive KCl for severe hypokalaemia"⟩ := by
  obtain ⟨b, r, hb, _, hlow, _, _⟩ := potassiumOverlay_composes severeSnapshot
  exact ⟨b, r, hb, hlow (by unfold severeSnapshot; norm_num)⟩

end IHPS

namespace IHPS

/-! ## C9 -/

lemma mem_ite_singleton {c : Prop} [Decidable c] (a b : String) :
    a ∈ (if c then [b] else ([] : List String)) ↔ c ∧ a = b := by
  split_ifs with h <;> simp [h]

lemma ite_singleton_eq_nil {c : Prop} [Decidable c] (b : String) :
    (if c then [b] else ([] : List String)) = [] ↔ ¬c := by
  split_ifs with h <;> simp [h]

lemma mem_alerts_hypokalaemia (s : ClinicalSnapshot) :
    msgHypokalaemia ∈ generateSimpleAlerts s ↔ s.potassium < 3.0 := by
  have d2 : msgHypokalaemia ≠ msgHyperkalaemia := by decide
  have d3 : msgHypokalaemia ≠ msgHyponatremia := by decide
  have d4 : msgHypokalaemia ≠ msgHypochloremia := by decide
  have d5 : msgHypokalaemia ≠ msgAlkalosis := by decide
  simp [generateSimpleAlerts, mem_ite_singleton, d2, d3, d4, d5]

lemma mem_alerts_hyperkalaemia (s : ClinicalSnapshot) :
    msgHyperkalaemia ∈ generateSimpleAlerts s ↔ s.potassium > 5.5 := by
  have d1 : msgHyperkalaemia ≠ msgHypokalaemia := by decide
  have d3 : msgHyperkalaemia ≠ msgHyponatremia := by decide
  have d4 : msgHyperkalaemia ≠ msgHypochloremia := by decide
  have d5 : msgHyperkalaemia ≠ msgAlkalosis := by decide
  simp [generateSimpleAlerts, mem_ite_singleton, d1, d3, d4, d5]

lemma mem_alerts_hyponatremia (s : ClinicalSnapshot) :
    msgHyponatremia ∈ generateSimpleAlerts s ↔ s.sodium < 130 := by
  have d1 : msgHyponatremia ≠ msgHypokalaemia := by decide
  have d2 : msgHyponatremia ≠ msgHyperkalaemia := by decide
  have d4 : msgHyponatremia ≠ msgHypochloremia := by decide
  have d5 : msgHyponatremia ≠ msgAlkalosis := by decide
  simp [generateSimpleAlerts, mem_ite_singleton, d1, d2, d4, d5]

lemma mem_alerts_hypochloremia (s : ClinicalSnapshot) :
    msgHypochloremia ∈ generateSimpleAlerts s ↔ s.chloride < 70 := by
  have d1 : msgHypochloremia ≠ msgHypokalaemia := by decide
  have d2 : msgHypochloremia ≠ msgHyperkalaemia := by decide
  have d3 : msgHypochloremia ≠ msgHyponatremia := by decide
  have d5 : msgHypochloremia ≠ msgAlkalosis := by decide
  simp [generateSimpleAlerts, mem_ite_singleton, d1, d2, d3, d5]

lemma mem_alerts_alkalosis (s : ClinicalSnapshot) :
    msgAlkalosis ∈ generateSimpleAlerts s ↔ s.ph > 7.55 := by
  have d1 : msgAlkalosis ≠ msgHypokalaemia := by decide
  have d2 : msgAlkalosis ≠ msgHyperkalaemia := by decide
  have d3 : msgAlkalosis ≠ msgHyponatremia := by decide
  have d4 : msgAlkalosis ≠ msgHypochloremia := by decide
  simp [generateSimpleAlerts, mem_ite_singleton, d1, d2, d3, d4]

/-- Claim C9 (confirmed): the alerts list is empty iff none of the five
threshold conditions holds, it is always a sublist of the five canonical
messages in their fixed evaluation order, and each message appears iff
its condition holds. -/
theorem alerts_iff_thresholds (s : ClinicalSnapshot) :
    (generateSimpleAlerts s = [] ↔
      ¬(s.potassium < 3.0 ∨ s.potassium > 5.5 ∨ s.sodium < 130 ∨
        s.chloride < 70 ∨ s.ph > 7.55)) ∧
    (generateSimpleAlerts s).Sublist
      [msgHypokalaemia, msgHyperkalaemia, msgHyponatremia,
       msgHypochloremia, msgAlkalosis] ∧
    (msgHypokalaemia ∈ generateSimpleAlerts s ↔ s.potassium < 3.0) ∧
    (msgHyperkalaemia ∈ generateSimpleAlerts s ↔ s.potassium > 5.5) ∧
    (msgHyponatremia ∈ generateSimpleAlerts s ↔ s.sodium < 130) ∧
    (msgHypochloremia ∈ generateSimpleAlerts s ↔ s.chloride < 70) ∧
    (msgAlkalosis ∈ generateSimpleAlerts s ↔ s.ph > 7.55) := by
  refine ⟨?_, ?_, mem_alerts_hypokalaemia s, mem_alerts_hyperkalaemia s,
    mem_alerts_hyponatremia s, mem_alerts_hypochloremia s, mem_alerts_alkalosis s⟩
  · simp only [generateSimpleAlerts, List.append_eq_nil, ite_singleton_eq_nil]
    tauto
  · unfold generateSimpleAlerts
    split_ifs <;> decide

/-! ## C10 -/

/-- Claim C10 (confirmed): for potassium in (5.0, 5.5] the plan's fluid
carries no KCl additive and its reason notes holding KCl, while the
hyperkalaemia alert (which needs potassium > 5.5) is absent. -/
theorem heldKCl_without_hyperkalaemia_alert (s : ClinicalSnapshot)
    (h5 : 5.0 < s.potassium) (h55 : s.potassium ≤ 5.5) :
    (containsSubstr (calculateIHPSFluidPlan s).fluidType.data "KCl".data = false) ∧
    (∃ r, (calculateIHPSFluidPlan s).fluidSelectionReason
        = r ++ " + hold KCl for hyperkalaemia") ∧
    msgHyperkalaemia ∉ (calculateIHPSFluidPlan s).alerts := by
  obtain ⟨b, r, hb, hmem⟩ := selectBaseFluid_cases s
  have hdel : replaceFirst (b ++ " + 20 mEq/L KCl") " + 20 mEq/L KCl" "" = b := by
    fin_cases hmem <;> decide
  have hftype : (calculateIHPSFluidPlan s).fluidType
      = (selectOptimalFluidEnhanced s).fluid := rfl
  have hreason : (calculateIHPSFluidPlan s).fluidSelectionReason
      = (selectOptimalFluidEnhanced s).reason := rfl
  have halerts : (calculateIHPSFluidPlan s).alerts = generateSimpleAlerts s := rfl
  have hsel : selectOptimalFluidEnhanced s = ⟨b, r ++ " + hold KCl for hyperkalaemia"⟩ := by
    unfold selectOptimalFluidEnhanced applyPotassiumAdjustment
    rw [hb, if_neg (not_lt.mpr (by linarith)), if_pos h5]
    show (⟨replaceFirst (b ++ " + 20 mEq/L KCl") " + 20 mEq/L KCl" "",
          r ++ " + hold KCl for hyperkalaemia"⟩ : FluidSelection) = _
    rw [hdel]
  refine ⟨?_, ⟨r, by rw [hreason, hsel]⟩, ?_⟩
  · rw [hftype, hsel]
    show containsSubstr b.data "KCl".data = false
    fin_cases hmem <;> decide
  · rw [halerts]
    intro hmem2
    have h := (mem_alerts_hyperkalaemia s).mp hmem2
    linarith

/-- Witness for C10 at potassium 5.2. -/
theorem heldKCl_without_hyperkalaemia_alert_witness :
    (containsSubstr (calculateIHPSFluidPlan midPotassiumSnapshot).fluidType.data
      "KCl".data = false) ∧
    (∃ r, (calculateIHPSFluidPlan midPotassiumSnapshot).fluidSelectionReason
        = r ++ " + hold KCl for hyperkalaemia") ∧
    msgHyperkalaemia ∉ (calculateIHPSFluidPlan midPotassiumSnapshot).alerts :=
  heldKCl_without_hyperkalaemia_alert midPotassiumSnapshot
    (by unfold midPotassiumSnapshot; norm_num)
    (by unfold midPotassiumSnapshot; norm_num)

end IHPS

namespace IHPS

/-! ## C6 -/

/-- Claim C6 (confirmed): the severity tier picks 20 mL/kg for severe
depletion, else 10 mL/kg for moderate depletion, else 0 with the
no-bolus reason; the hematocrit and lactate escalators only ever raise
the per-kg volume (to at least 10); and totalVolume is the rounded
product of the final per-kg volume and the weight. -/
theorem bolus_tiers_and_escalators (s : ClinicalSnapshot) :
    ((bolusTier s).1 = 0 ∨ (bolusTier s).1 = 10 ∨ (bolusTier s).1 = 20) ∧
    ((s.sodium < 130 ∨ s.chloride < 70 ∨ s.ph > 7.55) → (bolusTier s).1 = 20) ∧
    (¬(s.sodium < 130 ∨ s.chloride < 70 ∨ s.ph > 7.55) →
      (s.sodium < 135 ∨ s.chloride < 90 ∨ s.ph > 7.45) → (bolusTier s).1 = 10) ∧
    (¬(s.sodium < 130 ∨ s.chloride < 70 ∨ s.ph > 7.55) →
      ¬(s.sodium < 135 ∨ s.chloride < 90 ∨ s.ph > 7.45) →
      bolusTier s = (0, "No bolus needed - mild abnormalities")) ∧
    (bolusTier s).1 ≤ (calculateBolusRecommendation s).volume ∧
    ((truthyAndGt s.hct 50 = true ∨ truthyAndGt s.lactate 2.0 = true) →
      10 ≤ (calculateBolusRecommendation s).volume) ∧
    (calculateBolusRecommendation s).totalVolume =
      mathRound (((calculateBolusRecommendation s).volume : ℚ) * s.weight) := by
  refine ⟨?_, fun h => ?_, fun h h' => ?_, fun h h' => ?_, ?_, fun h => ?_, rfl⟩
  · unfold bolusTier
    split_ifs <;> simp
  · unfold bolusTier
    rw [if_pos h]
  · unfold bolusTier
    rw [if_neg h, if_pos h']
  · unfold bolusTier
    rw [if_neg h, if_neg h']
  · simp only [calculateBolusRecommendation]
    split_ifs <;> omega
  · simp only [calculateBolusRecommendation]
    split_ifs <;> first | omega | tauto

/-- Witness for C6: the severe snapshot gets the 20 mL/kg tier. -/
theorem bolus_tiers_and_escalators_witness :
    (bolusTier severeSnapshot).1 = 20 :=
  (bolus_tiers_and_escalators severeSnapshot).2.1
    (Or.inl (by unfold severeSnapshot; norm_num))

/-! ## C8 -/

lemma optCheck_iff (o : Option ℚ) (lo hi : ℚ) :
    (optLt o lo || optGt o hi) = true ↔ presentOutOfRange o lo hi := by
  cases o <;> simp [optLt, optGt, presentOutOfRange]

lemma validateInputs_none_iff (na k cl ph w : Option ℚ) :
    validateInputs na k cl ph w = none ↔
      ¬ presentOutOfRange na 120 155 ∧ ¬ presentOutOfRange k 2.0 8.0 ∧
      ¬ presentOutOfRange cl 60 120 ∧ ¬ presentOutOfRange ph 7.0 7.7 ∧
      ¬ presentOutOfRange w 1.0 10.0 := by
  simp only [← optCheck_iff]
  unfold validateInputs
  split_ifs <;> simp_all

lemma validateInputs_sodium_error (na k cl ph w : Option ℚ)
    (h : presentOutOfRange na 120 155) :
    validateInputs na k cl ph w = some sodiumRangeMsg := by
  unfold validateInputs
  rw [if_pos ((optCheck_iff na 120 155).mpr h)]

lemma validateInputs_potassium_error (na k cl ph w : Option ℚ)
    (hna : ¬ presentOutOfRange na 120 155) (h : presentOutOfRange k 2.0 8.0) :
    validateInputs na k cl ph w = some potassiumRangeMsg := by
  unfold validateInputs
  rw [if_neg (fun hb => hna ((optCheck_iff na 120 155).mp hb)),
    if_pos ((optCheck_iff k 2.0 8.0).mpr h)]

lemma validateInputs_chloride_error (na k cl ph w : Option ℚ)
    (hna : ¬ presentOutOfRange na 120 155) (hk : ¬ presentOutOfRange k 2.0 8.0)
    (h : presentOutOfRange cl 60 120) :
    validateInputs na k cl ph w = some chlorideRangeMsg := by
  unfold validateInputs
  rw [if_neg (fun hb => hna ((optCheck_iff na 120 155).mp hb)),
    if_neg (fun hb => hk ((optCheck_iff k 2.0 8.0).mp hb)),
    if_pos ((optCheck_iff cl 60 120).mpr h)]

lemma validateInputs_ph_error (na k cl ph w : Option ℚ)
    (hna : ¬ presentOutOfRange na 120 155) (hk : ¬ presentOutOfRange k 2.0 8.0)
    (hcl : ¬ presentOutOfRange cl 60 120) (h : presentOutOfRange ph 7.0 7.7) :
    validateInputs na k cl ph w = some phRangeMsg := by
  unfold validateInputs
  rw [if_neg (fun hb => hna ((optCheck_iff na 120 155).mp hb)),
    if_neg (fun hb => hk ((optCheck_iff k 2.0 8.0).mp hb)),
    if_neg (fun hb => hcl ((optCheck_iff cl 60 120).mp hb)),
    if_pos ((optCheck_iff ph 7.0 7.7).mpr h)]

lemma validateInputs_weight_error (na k cl ph w : Option ℚ)
    (hna : ¬ presentOutOfRange na 120 155) (hk : ¬ presentOutOfRange k 2.0 8.0)
    (hcl : ¬ presentOutOfRange cl 60 120) (hph : ¬ presentOutOfRange ph 7.0 7.7)
    (h : presentOutOfRange w 1.0 10.0) :
    validateInputs na k cl ph w = some weightRangeMsg := by
  unfold validateInputs
  rw [if_neg (fun hb => hna ((optCheck_iff na 120 155).mp hb)),
    if_neg (fun hb => hk ((optCheck_iff k 2.0 8.0).mp hb)),
    if_neg (fun hb => hcl ((optCheck_iff cl 60 120).mp hb)),
    if_neg (fun hb => hph ((optCheck_iff ph 7.0 7.7).mp hb)),
    if_pos ((optCheck_iff w 1.0 10.0).mpr h)]

lemma handleCalculate_of_error (r : CalcRequest) (e : String)
    (h : validateInputs r.sodium r.potassium r.chloride r.ph r.weight = some e) :
    handleCalculate r = .error e := by
  unfold handleCalculate
  rw [h]

/-- Claim C8 (amended): a present required field outside its declared
range fails validation with its field-specific message, in the fixed
check order, and the engine is never invoked; when validation passes and
the five fields are present the engine is invoked on the parsed
snapshot.  An absent required field, however, passes its range check, so
validation does not enforce presence. -/
theorem validation_gates_engine (r : CalcRequest) :
    (engineInvoked r = true ↔
      (¬ presentOutOfRange r.sodium 120 155 ∧ ¬ presentOutOfRange r.potassium 2.0 8.0 ∧
       ¬ presentOutOfRange r.chloride 60 120 ∧ ¬ presentOutOfRange r.ph 7.0 7.7 ∧
       ¬ presentOutOfRange r.weight 1.0 10.0)) ∧
    (presentOutOfRange r.sodium 120 155 → handleCalculate r = .error sodiumRangeMsg) ∧
    (¬ presentOutOfRange r.sodium 120 155 → presentOutOfRange r.potassium 2.0 8.0 →
      handleCalculate r = .error potassiumRangeMsg) ∧
    (¬ presentOutOfRange r.sodium 120 155 → ¬ presentOutOfRange r.potassium 2.0 8.0 →
      presentOutOfRange r.chloride 60 120 →
      handleCalculate r = .error chlorideRangeMsg) ∧
    (¬ presentOutOfRange r.sodium 120 155 → ¬ presentOutOfRange r.potassium 2.0 8.0 →
      ¬ presentOutOfRange r.chloride 60 120 → presentOutOfRange r.ph 7.0 7.7 →
      handleCalculate r = .error phRangeMsg) ∧
    (¬ presentOutOfRange r.sodium 120 155 → ¬ presentOutOfRange r.potassium 2.0 8.0 →
      ¬ presentOutOfRange r.chloride 60 120 → ¬ presentOutOfRange r.ph 7.0 7.7 →
      presentOutOfRange r.weight 1.0 10.0 →
      handleCalculate r = .error weightRangeMsg) ∧
    (∀ s, parseSnapshot r = some s → engineInvoked r = true →
      handleCalculate r = .ok (some (calculateIHPSFluidPlan s))) := by
  refine ⟨?_, ?_, ?_, ?_, ?_, ?_, ?_⟩
  · unfold engineInvoked
    rw [Option.isNone_iff_eq_none, validateInputs_none_iff]
  · exact fun h => handleCalculate_of_error r _ (validateInputs_sodium_error _ _ _ _ _ h)
  · exact fun h1 h => handleCalculate_of_error r _
      (validateInputs_potassium_error _ _ _ _ _ h1 h)
  · exact fun h1 h2 h => handleCalculate_of_error r _
      (validateInputs_chloride_error _ _ _ _ _ h1 h2 h)
  · exact fun h1 h2 h3 h => handleCalculate_of_error r _
      (validateInputs_ph_error _ _ _ _ _ h1 h2 h3 h)
  · exact fun h1 h2 h3 h4 h => handleCalculate_of_error r _
      (validateInputs_weight_error _ _ _ _ _ h1 h2 h3 h4 h)
  · intro s hs hi
    unfold engineInvoked at hi
    rw [Option.isNone_iff_eq_none] at hi
    unfold handleCalculate
    rw [hi, hs]
    rfl

/-- Counterexample to C8: the sodium field is absent, yet validation
passes and the engine is invoked — presence of the required fields is
not enforced. -/
theorem missingSodium_passes_validation :
    missingSodiumRequest.sodium = none ∧ engineInvoked missingSodiumRequest = true := by
  constructor
  · rfl
  · unfold engineInvoked validateInputs missingSodiumRequest
    norm_num [optLt, optGt]

/-- Witness for the amended C8: the in-range request reaches the engine. -/
theorem validation_gates_engine_witness :
    ∃ s, parseSnapshot inRangeRequest = some s ∧
      handleCalculate inRangeRequest = .ok (some (calculateIHPSFluidPlan s)) := by
  have hinv : engineInvoked inRangeRequest = true := by
    unfold engineInvoked validateInputs inRangeRequest
    norm_num [optLt, optGt]
  exact ⟨_, rfl, (validation_gates_engine inRangeRequest).2.2.2.2.2.2 _ rfl hinv⟩

end IHPS
